import Mathlib

/-!
Verification of the HEALOPS run-orchestration engine (a LangGraph-based
CI/CD repair agent) against its natural-language specification.

The Python sources are shallowly embedded:

* `AgentState` mirrors the `AgentState` TypedDict of
  `src/agent/graph/agent_graph.py` together with the initial-state literal of
  `run_agent_pipeline` in `src/agent/main.py`.  The per-file no-diff counter
  `no_diff_counts` is a Python dict always read through `.get(file, 0)`, so it
  is embedded as a total function `String → Nat` defaulting to 0.
* Pure node functions (`should_retry`, `retry_increment_node`,
  `fix_generator_node`'s control flow, the routing helpers
  `_has_fixable_failures`, `_after_config_fix`, …) are translated directly.
* Calls into external collaborators (git, the LLM, the test runner, the CI
  API, the file system) are inputs of the model: an `Oracle` record supplies
  the externally determined values, and each repair attempt of
  `fix_generator_node` carries an `AttemptOutcome` describing what the
  external repair call produced for that failure.  The state-update skeleton
  around those inputs is translated from the source.
* Fields of the Python state that are only ever passed through to external
  collaborators (`test_results` raw stdout/stderr, timestamps inside log
  lines) are not tracked; log lines whose content is computed purely are.
-/

/-- `MAX_ITERATIONS` from `src/agent/agents/retry_controller.py` line 9. -/
def MAX_ITERATIONS : Nat := 5

/-- `MAX_NO_DIFF_RETRIES` from `src/agent/agents/fix_generator_agent.py`
line 25: blacklist after this many consecutive no-diff attempts. -/
def MAX_NO_DIFF_RETRIES : Nat := 2

/-- One entry of `fixes_applied` (the dict literals appended in
`fix_generator_agent.py`, `config_fix_agent.py`, `test_generator_agent.py`;
schema `FixEntry` in `src/agent/schemas/results_schema.py`). -/
structure FixRec where
  file : String
  bug_type : String
  line_number : Int
  commit_message : String
  status : String
deriving DecidableEq, Repr

/-- What the external repair attempt (file-system check plus the two
`generate_targeted_fix`/`generate_fix` LLM calls of
`fix_generator_node`) produced for one failure:

* `notFound`  — `os.path.exists(full_path)` was false (lines 40–51);
* `changed`   — generated content differs from the current file content
  (`fixed_content.strip() != file_content.strip()`, lines 96–110);
* `noDiff`    — the generated content was empty or identical (lines 111–129);
* `genError`  — the generation call raised; carries `str(e)` (lines 131–140).
-/
inductive AttemptOutcome
  | notFound
  | changed
  | noDiff
  | genError (msg : String)
deriving DecidableEq, Repr

/-- One entry of `failures` as consumed by `fix_generator_node`.  The
LLM-facing fields (`error_message`, `error_output`, `fix_instruction`) only
feed the external generation calls, whose result is the embedded
`outcome`. -/
structure Failure where
  file : String
  bug_type : String
  line_number : Int
  outcome : AttemptOutcome
deriving DecidableEq, Repr

/-- One entry of `ci_cd_timeline` (`cicd_monitor_agent.py` lines 28–32,
`_skip_cicd_node` in `agent_graph.py` lines 140–146). -/
structure CICDEntry where
  iteration : Nat
  status : String
  timestamp : String
  message : String := ""
deriving DecidableEq, Repr

/-- Score record of `ScoreBreakdown` in `src/agent/schemas/results_schema.py`
(lines 24–29 give the field defaults). -/
structure ScoreBreakdown where
  base : Int := 100
  speed_bonus : Int := 0
  efficiency_penalty : Int := 0
  final : Int := 100
deriving DecidableEq, Repr

/-- `ScoreBreakdown.calculate` (results_schema.py lines 31–38).  The Python
method mutates `self` and returns it; the embedding returns the resulting
record.  `time_taken_seconds` is a Python float compared against 300 and is
embedded as a rational; `commit_count` is a Python int. -/
def ScoreBreakdown.calculate (time_taken_seconds : ℚ) (commit_count : Int) :
    ScoreBreakdown :=
  let base : Int := 100
  let speed_bonus : Int := if time_taken_seconds < 300 then 10 else 0
  let extra_commits : Int := max 0 (commit_count - 20)
  let efficiency_penalty : Int := -(extra_commits * 2)
  { base := base
    speed_bonus := speed_bonus
    efficiency_penalty := efficiency_penalty
    final := base + speed_bonus + efficiency_penalty }

/-- Result record built by `finalize_node` (retry_controller.py lines 80–96).
The Python code also passes `team_name=state["team_name"]` and
`leader_name=state["leader_name"]`; those two subscripts are the subject of
claim C10 (the keys are never present at run time) and are modelled at the
key level below, so the record here carries the remaining fields. -/
structure AgentResultsRec where
  run_id : String
  repo_url : String
  branch : String
  branch_url : String
  total_failures : Nat
  total_fixes : Nat
  ci_cd_status : String
  iterations_used : Nat
  commit_count : Nat
  time_taken_seconds : ℚ
  score : ScoreBreakdown
  fixes : List FixRec
  ci_cd_timeline : List CICDEntry
deriving DecidableEq, Repr

/-- The run state: the `AgentState` TypedDict of `agent_graph.py` lines
31–63 plus the two extra keys (`commit_message`, `auto_commit`) that
`run_agent_pipeline` puts in the initial-state dict (main.py lines 164–197).
`no_diff_counts` is read only through `.get(file, 0)` and is embedded as a
total function; `results` is `none` until `finalize_node` fills it. -/
structure AgentState where
  run_id : String
  github_url : String
  commit_message : String
  github_token : String
  auto_commit : Bool
  branch_name : String
  repo_local_path : String
  test_framework : String
  test_files : List String
  failures : List Failure
  fixes_applied : List FixRec
  files_failed_before : List String
  commit_count : Nat
  push_succeeded : Bool
  iteration : Nat
  ci_cd_timeline : List CICDEntry
  ci_cd_status : String
  start_time : ℚ
  end_time : ℚ
  current_step : String
  results : Option AgentResultsRec
  error_message : String
  repo_cleaned : Bool
  logs : List String
  test_exit_class : String
  generated_test_files : List String
  config_fix_changed : Bool
  tests_generated : Bool
  no_diff_counts : String → Nat
  effective_repo_url : String
  forked_from : String
  new_fix_count : Nat

/-- The initial state built by `run_agent_pipeline` (main.py lines 164–197),
parametrised by the request payload and `time.time()`. -/
def initialAgentState (run_id github_url commit_message github_token : String)
    (auto_commit : Bool) (start_time : ℚ) : AgentState where
  run_id := run_id
  github_url := github_url
  commit_message := commit_message
  github_token := github_token
  auto_commit := auto_commit
  branch_name := ""
  repo_local_path := ""
  test_framework := ""
  test_files := []
  failures := []
  fixes_applied := []
  files_failed_before := []
  commit_count := 0
  push_succeeded := false
  iteration := 1
  ci_cd_timeline := []
  ci_cd_status := "PENDING"
  start_time := start_time
  end_time := 0
  current_step := "Initializing..."
  results := none
  error_message := ""
  repo_cleaned := false
  logs := []
  test_exit_class := ""
  generated_test_files := []
  config_fix_changed := false
  tests_generated := false
  no_diff_counts := fun _ => 0
  effective_repo_url := ""
  forked_from := ""
  new_fix_count := 0

/-! ### RetryController (`src/agent/agents/retry_controller.py`) -/

/-- `should_retry` (retry_controller.py lines 12–29).  Python's
`if state.get("error_message")` tests string truthiness, i.e. non-emptiness. -/
def should_retry (state : AgentState) : String :=
  if state.error_message ≠ "" then "finalize"
  else
    let ci_status := state.ci_cd_status
    let iteration := state.iteration
    if ci_status = "PASSED" then "finalize"
    else if iteration ≥ MAX_ITERATIONS then "finalize"
    else "run_tests"

/-- `retry_increment_node` (retry_controller.py lines 32–41). -/
def retry_increment_node (state : AgentState) : AgentState :=
  let new_iter := state.iteration + 1
  { state with
    iteration := new_iter
    config_fix_changed := false
    current_step := "Retrying (iteration " ++ toString new_iter ++ "/" ++
      toString MAX_ITERATIONS ++ ")..." }

/-! ### Routing helpers (`src/agent/graph/agent_graph.py`) -/

/-- `_has_fixable_failures` (agent_graph.py lines 68–97): the conditional
edge evaluated after `analyze_failures`. -/
def _has_fixable_failures (state : AgentState) : String :=
  if state.test_exit_class = "PASSED" then "finalize"
  else if state.failures.length = 0 then
    if state.test_exit_class = "COLLECTION_ERROR" ∨
        state.test_exit_class = "NO_TESTS_COLLECTED" then "apply_config_fix"
    else if ¬ state.tests_generated then "apply_config_fix"
    else "finalize"
  else "generate_fixes"

/-- `_after_config_fix` (agent_graph.py lines 100–116). -/
def _after_config_fix (state : AgentState) : String :=
  if state.config_fix_changed then "reinstall_deps"
  else if ¬ state.tests_generated then "reinstall_deps"
  else "finalize"

/-- `_should_generate_tests` (agent_graph.py lines 119–125). -/
def _should_generate_tests (state : AgentState) : String :=
  if state.tests_generated then "commit_and_push" else "generate_tests"

/-- `_should_monitor_cicd` (agent_graph.py lines 128–132). -/
def _should_monitor_cicd (state : AgentState) : String :=
  if state.push_succeeded then "monitor_cicd" else "skip_cicd"

/-! ### FixGeneratorAgent (`src/agent/agents/fix_generator_agent.py`) -/

/-- Python `dict` assignment `m[k] = v` on the no-diff counter map. -/
def updCount (m : String → Nat) (k : String) (v : Nat) : String → Nat :=
  fun x => if x = k then v else m x

/-- Python `set.add` on a set of file paths represented as a duplicate-free
list (only membership and cardinality of these sets are ever consumed). -/
def addPath (p : String) (l : List String) : List String :=
  if p ∈ l then l else l ++ [p]

/-- The accumulator threaded through the `for failure in failures` loop of
`fix_generator_node`: the lists/sets/dict the loop body mutates. -/
structure FixGenAcc where
  fixes_applied : List FixRec
  files_failed_before : List String
  new_failed_files : List String
  no_diff_counts : String → Nat
  new_fix_count : Nat

/-- One pass of the `for failure in failures` loop body of
`fix_generator_node` (fix_generator_agent.py lines 30–140), with the result
of the external repair attempt given by `f.outcome`:

* blacklisted files are skipped up front (lines 34–36);
* a missing file appends a "Failed" record and blacklists the file
  (lines 40–51);
* a content-changing fix appends a "Fixed" record and resets the counter
  (lines 96–110);
* a no-diff attempt increments the counter and, at
  `MAX_NO_DIFF_RETRIES`, appends one "Failed" record and blacklists the
  file (lines 111–129);
* a raised generation error appends a "Failed" record without touching the
  counter or the blacklist (lines 131–140). -/
def fixGenStep (acc : FixGenAcc) (f : Failure) : FixGenAcc :=
  if f.file ∈ acc.files_failed_before then acc
  else
    match f.outcome with
    | .notFound =>
        { acc with
          fixes_applied := acc.fixes_applied ++
            [{ file := f.file, bug_type := f.bug_type,
               line_number := f.line_number,
               commit_message := "fix: could not find " ++ f.file,
               status := "Failed" }]
          new_failed_files := addPath f.file acc.new_failed_files
          files_failed_before := addPath f.file acc.files_failed_before }
    | .changed =>
        { acc with
          fixes_applied := acc.fixes_applied ++
            [{ file := f.file, bug_type := f.bug_type,
               line_number := f.line_number,
               commit_message := "[AI-AGENT] fix: " ++ f.bug_type.toLower ++
                 " issue in " ++ f.file ++ " line " ++ toString f.line_number,
               status := "Fixed" }]
          new_fix_count := acc.new_fix_count + 1
          no_diff_counts := updCount acc.no_diff_counts f.file 0 }
    | .noDiff =>
        let prior_attempts := acc.no_diff_counts f.file
        let current_count := prior_attempts + 1
        let counts := updCount acc.no_diff_counts f.file current_count
        if current_count ≥ MAX_NO_DIFF_RETRIES then
          { acc with
            no_diff_counts := counts
            fixes_applied := acc.fixes_applied ++
              [{ file := f.file, bug_type := f.bug_type,
                 line_number := f.line_number,
                 commit_message := "fix: no change generated for " ++ f.file ++
                   " after " ++ toString current_count ++ " attempts",
                 status := "Failed" }]
            new_failed_files := addPath f.file acc.new_failed_files
            files_failed_before := addPath f.file acc.files_failed_before }
        else
          { acc with no_diff_counts := counts }
    | .genError msg =>
        { acc with
          fixes_applied := acc.fixes_applied ++
            [{ file := f.file, bug_type := f.bug_type,
               line_number := f.line_number,
               commit_message := "fix: error generating fix — " ++
                 msg.take 80,
               status := "Failed" }] }

/-- `fix_generator_node` (fix_generator_agent.py lines 7–160).  The final
`all_failed = files_failed_before | new_failed_files` union is the already
threaded `files_failed_before` set, because every path that adds to
`new_failed_files` also adds to `files_failed_before`. -/
def fix_generator_node (state : AgentState) : AgentState :=
  let acc0 : FixGenAcc :=
    { fixes_applied := state.fixes_applied
      files_failed_before := state.files_failed_before
      new_failed_files := []
      no_diff_counts := state.no_diff_counts
      new_fix_count := 0 }
  let acc := state.failures.foldl fixGenStep acc0
  let skipped :=
    (((state.failures.map Failure.file).dedup).filter
      (fun p => p ∈ acc.files_failed_before)).length
  let logs := state.logs ++
    (if skipped ≠ 0 then
      ["Skipped " ++ toString skipped ++ " file(s) — could not be auto-fixed"]
     else []) ++
    ["Fix attempt " ++ toString state.iteration ++ ": applied " ++
      toString acc.new_fix_count ++ " patch(es), " ++
      toString acc.new_failed_files.length ++ " failed"]
  { state with
    fixes_applied := acc.fixes_applied
    new_fix_count := acc.new_fix_count
    files_failed_before := acc.files_failed_before
    no_diff_counts := acc.no_diff_counts
    current_step := "Generating fixes..."
    logs := logs }

/-- Number of fix records for file `p` with status `s`. -/
def countRecs (p s : String) (l : List FixRec) : Nat :=
  l.countP (fun r => r.file = p ∧ r.status = s)

/-- Number of fix records for file `p` (any status). -/
def countFile (p : String) (l : List FixRec) : Nat :=
  l.countP (fun r => r.file = p)

/-! ### Graph nodes (`build_agent_graph`, agent_graph.py lines 185–295) -/

/-- The node names added by `build_agent_graph` plus the `END` sentinel. -/
inductive Node
  | clone_repo
  | install_deps
  | discover_tests
  | run_tests
  | analyze_failures
  | apply_config_fix
  | reinstall_deps
  | generate_tests
  | generate_fixes
  | commit_and_push
  | monitor_cicd
  | skip_cicd
  | retry_increment
  | finalize
  | END
deriving DecidableEq, Repr, Fintype

/-- Externally determined values consumed by the stage functions: results of
git/GitHub calls, the test runner's exit code, the LLM analysis output, the
file-system probes of the config-fix stage, the CI poll, and the wall clock.
Each is a function of the state at the call site, so repeated calls (for
example `run_tests` on later iterations) may return different values. -/
structure Oracle where
  /-- `generate_branch_name(commit_message)` in `repo_clone_node`. -/
  branchName : AgentState → String
  /-- Effective repo URL after the fork-fallback logic of `repo_clone_node`. -/
  effectiveRepoUrl : AgentState → String
  /-- `forked_from` value chosen by `repo_clone_node` (the source URL when a
  fork happened, else Python `None`, embedded as `""`). -/
  forkedFrom : AgentState → String
  /-- `detect_test_framework` / fallback logic of `test_discovery_node`. -/
  testFramework : AgentState → String
  /-- `discover_test_files` result in `test_discovery_node`. -/
  discoveredTestFiles : AgentState → List String
  /-- Whether `detect_test_framework` initially found nothing, which makes
  `test_discovery_node` invoke `test_generator_node` inline. -/
  discoveryFrameworkMissing : AgentState → Bool
  /-- `run_tests(...)["returncode"]` in `test_runner_node`. -/
  testReturncode : AgentState → Int
  /-- Failure descriptors extracted by `code_analysis_node` when the run is
  not short-circuited by a config fault; each carries the outcome the later
  external repair attempt would produce for it. -/
  analysisFailures : AgentState → List Failure
  /-- `config_fix_node`: pytest.ini was absent and got written (step 2). -/
  configWrotePytestIni : AgentState → Bool
  /-- `config_fix_node`: `_patch_requirements` returned True (step 3). -/
  configPatchedRequirements : AgentState → Bool
  /-- `config_fix_node`: the NO_TESTS_COLLECTED scaffold check fired
  (step 4, `needs_scaffold`). -/
  configScaffolded : AgentState → Bool
  /-- `_find_django_app` result used in the scaffold record (step 4). -/
  configAppName : AgentState → String
  /-- `test_generator_node`, iteration > 1: some generated test files are
  failing and get re-generated (`_find_failing_generated_tests` nonempty). -/
  genHasFailing : AgentState → Bool
  /-- `test_generator_node`, iteration > 1: the "Fixed" records appended for
  repaired generated test files. -/
  genRepairRecords : AgentState → List FixRec
  /-- `test_generator_node`, iteration 1: every source file already has a
  test (the `if not uncovered` early return). -/
  genAllCovered : AgentState → Bool
  /-- `test_generator_node`, iteration 1: relative paths of the newly
  written test files. -/
  genNewTestFiles : AgentState → List String
  /-- `test_generator_node`, iteration 1: the "Generated" records appended
  for the new test files. -/
  genRecords : AgentState → List FixRec
  /-- `commit_and_push` in `commit_node`: `.ok pushed` when the call
  returned, `.error (str e)` when it raised. -/
  commitOutcome : AgentState → Except String Bool
  /-- `poll_workflow_status(...)["status"]` in `cicd_monitor_node`. -/
  ciStatus : AgentState → String
  /-- `datetime.now(timezone.utc).isoformat()` at timeline-append sites. -/
  timestamp : AgentState → String
  /-- `time.time()` read by `finalize_node`. -/
  endTime : AgentState → ℚ
  /-- `cleanup_repo(repo_path)` result in `finalize_node`. -/
  repoCleaned : AgentState → Bool

/-- `repo_clone_node` (repo_clone_agent.py lines 14–80).  The local path is
`os.path.join("/tmp", run_id, "repo")`; branch/fork outcomes are external. -/
def repo_clone_node (o : Oracle) (state : AgentState) : AgentState :=
  { state with
    repo_local_path := "/tmp/" ++ state.run_id ++ "/repo"
    branch_name := o.branchName state
    effective_repo_url := o.effectiveRepoUrl state
    forked_from := o.forkedFrom state
    current_step := "Repository cloned — fix branch created" }

/-- `dep_install_node` (dep_install_agent.py lines 6–36): only
`current_step` (and externally worded log lines) change. -/
def dep_install_node (state : AgentState) : AgentState :=
  { state with current_step := "Installing dependencies..." }

/-- `EXIT_CODE_CLASS.get(rc, f"UNKNOWN_EXIT_{rc}")`
(test_runner_agent.py lines 8–15 and 43). -/
def exitCodeClass (rc : Int) : String :=
  if rc = 0 then "PASSED"
  else if rc = 1 then "TESTS_FAILED"
  else if rc = 2 then "INTERRUPTED"
  else if rc = 3 then "INTERNAL_ERROR"
  else if rc = 4 then "COLLECTION_ERROR"
  else if rc = 5 then "NO_TESTS_COLLECTED"
  else "UNKNOWN_EXIT_" ++ toString rc

/-- `test_runner_node` (test_runner_agent.py lines 18–65).  The raw
stdout/stderr capture feeds only the external analysis call and is not
tracked. -/
def test_runner_node (o : Oracle) (state : AgentState) : AgentState :=
  { state with
    test_exit_class := exitCodeClass (o.testReturncode state)
    current_step := "Running tests..." }

/-- `code_analysis_node` (code_analysis_agent.py lines 56–142): a
COLLECTION_ERROR / NO_TESTS_COLLECTED exit class short-circuits to zero
failures; otherwise the extraction/LLM pipeline produces the failure list. -/
def code_analysis_node (o : Oracle) (state : AgentState) : AgentState :=
  if state.test_exit_class = "COLLECTION_ERROR" ∨
      state.test_exit_class = "NO_TESTS_COLLECTED" then
    { state with
      failures := []
      current_step := "Config/collection fault detected — no code fix possible" }
  else
    { state with
      failures := o.analysisFailures state
      current_step := "Analyzing failures..." }

/-- Fix record appended when `config_fix_node` writes `pytest.ini`. -/
def pytestIniRec : FixRec :=
  { file := "pytest.ini", bug_type := "CONFIG", line_number := 0
    commit_message := "[AI-AGENT] fix(ci): add pytest.ini with DJANGO_SETTINGS_MODULE to fix collection import crash"
    status := "Fixed" }

/-- Fix record appended when `config_fix_node` patches `requirements.txt`. -/
def requirementsRec : FixRec :=
  { file := "requirements.txt", bug_type := "CONFIG", line_number := 0
    commit_message := "[AI-AGENT] fix(deps): add pytest + pytest-django so CI can collect tests"
    status := "Fixed" }

/-- Fix record appended when `config_fix_node` scaffolds `tests.py`. -/
def scaffoldRec (app_name : String) : FixRec :=
  { file := app_name ++ "/tests.py", bug_type := "CONFIG", line_number := 0
    commit_message := "[AI-AGENT] test(" ++ app_name ++ "): scaffold minimal smoke tests so pytest collects ≥1 test"
    status := "Fixed" }

/-- `config_fix_node` (config_fix_agent.py lines 143–243).  The three
file-system outcomes decide `created_files`; `config_fix_changed` is
`len(created_files) > 0`. -/
def config_fix_node (o : Oracle) (state : AgentState) : AgentState :=
  let ini := o.configWrotePytestIni state
  let req := o.configPatchedRequirements state
  let scaf := state.test_exit_class = "NO_TESTS_COLLECTED" &&
    o.configScaffolded state
  let recs :=
    (if ini then [pytestIniRec] else []) ++
    (if req then [requirementsRec] else []) ++
    (if scaf then [scaffoldRec (o.configAppName state)] else [])
  { state with
    fixes_applied := state.fixes_applied ++ recs
    config_fix_changed := ini || req || scaf
    current_step := "Applying config fix..." }

/-- `_reinstall_deps_node` (agent_graph.py lines 160–181). -/
def _reinstall_deps_node (state : AgentState) : AgentState :=
  { state with current_step := "Reinstalling dependencies..." }

/-- `test_generator_node` (test_generator_agent.py): on iteration > 1 the
repair-on-retry path re-generates failing generated tests (or is a no-op);
on iteration 1 it either finds full coverage (setting only
`tests_generated`) or writes new test files, records them, and sets
`tests_generated`. -/
def test_generator_node (o : Oracle) (state : AgentState) : AgentState :=
  if state.iteration > 1 then
    if o.genHasFailing state then
      { state with
        fixes_applied := state.fixes_applied ++ o.genRepairRecords state
        current_step := "Repairing generated tests…" }
    else state
  else if o.genAllCovered state then
    { state with tests_generated := true }
  else
    { state with
      test_files := state.test_files ++ o.genNewTestFiles state
      generated_test_files :=
        state.generated_test_files ++ o.genNewTestFiles state
      fixes_applied := state.fixes_applied ++ o.genRecords state
      tests_generated := true
      current_step := "Generating test cases…" }

/-- `test_discovery_node` (test_discovery_agent.py lines 6–41): when no
framework is detected it first runs `test_generator_node` inline, then
records the detected framework and discovered files. -/
def test_discovery_node (o : Oracle) (state : AgentState) : AgentState :=
  let st1 :=
    if o.discoveryFrameworkMissing state then test_generator_node o state
    else state
  { st1 with
    test_framework := o.testFramework st1
    test_files := o.discoveredTestFiles st1
    current_step := "Discovering tests..." }

/-- `commit_node` (commit_agent.py lines 6–65): a successful push bumps
`commit_count`; a raised push error records `error_message` and leaves the
count unchanged. -/
def commit_node (o : Oracle) (state : AgentState) : AgentState :=
  match o.commitOutcome state with
  | .ok pushed =>
      { state with
        commit_count := state.commit_count + (if pushed then 1 else 0)
        push_succeeded := pushed
        current_step := "Pushing verified fixes to GitHub..." }
  | .error e =>
      { state with
        push_succeeded := false
        error_message := e
        current_step := "Push failed (auth/network error)" }

/-- `cicd_monitor_node` (cicd_monitor_agent.py lines 7–45): TIMEOUT is
downgraded to FAILED, and the iteration's outcome is appended to the
timeline. -/
def cicd_monitor_node (o : Oracle) (state : AgentState) : AgentState :=
  let raw := o.ciStatus state
  let ci := if raw = "TIMEOUT" then "FAILED" else raw
  { state with
    ci_cd_status := ci
    ci_cd_timeline := state.ci_cd_timeline ++
      [{ iteration := state.iteration, status := ci,
         timestamp := o.timestamp state }]
    current_step := "Monitoring CI/CD..." }

/-- `_skip_cicd_node` (agent_graph.py lines 135–157): records a SKIPPED
timeline entry and forces `ci_cd_status` to FAILED. -/
def _skip_cicd_node (o : Oracle) (state : AgentState) : AgentState :=
  { state with
    ci_cd_status := "FAILED"
    ci_cd_timeline := state.ci_cd_timeline ++
      [{ iteration := state.iteration, status := "SKIPPED",
         timestamp := o.timestamp state,
         message := "No push — CI/CD check skipped" }]
    current_step := "Skipped CI/CD (no changes pushed)"
    logs := state.logs ++ ["⏭ Skipped CI/CD monitoring (no new push)"] }

/-- Python `str.rstrip(chars)`: drop trailing characters of `s` that belong
to `cs`. -/
def rstripChars (cs : List Char) (s : String) : String :=
  String.mk ((s.toList.reverse.dropWhile (fun c => c ∈ cs)).reverse)

/-- `finalize_node` (retry_controller.py lines 44–124) at the value level:
score, totals, the CI-status override, the branch URL, and the result
record.  The `state["team_name"]` / `state["leader_name"]` dict subscripts
and the `AgentResults` schema check are analysed separately at the key
level (claim C10); `_write_results_json` is pure I/O and not tracked. -/
def finalize_node (o : Oracle) (state : AgentState) : AgentState :=
  let end_time := o.endTime state
  let time_taken := end_time - state.start_time
  let score := ScoreBreakdown.calculate time_taken (Int.ofNat state.commit_count)
  let total_failures := state.failures.length
  let total_fixes := (state.fixes_applied.filter
    (fun f => f.status = "Fixed")).length
  let github_url := rstripChars ['.', 'g', 'i', 't']
    (rstripChars ['/'] state.github_url)
  let branch_url :=
    if github_url ≠ "" ∧ state.branch_name ≠ "" then
      github_url ++ "/tree/" ++ state.branch_name
    else ""
  let ci_cd_status :=
    if state.error_message ≠ "" then "FAILED"
    else if state.test_exit_class = "PASSED" then "PASSED"
    else state.ci_cd_status
  let results : AgentResultsRec :=
    { run_id := state.run_id
      repo_url := state.github_url
      branch := state.branch_name
      branch_url := branch_url
      total_failures := total_failures
      total_fixes := total_fixes
      ci_cd_status := ci_cd_status
      iterations_used := state.iteration
      commit_count := state.commit_count
      time_taken_seconds := time_taken
      score := score
      fixes := state.fixes_applied
      ci_cd_timeline := state.ci_cd_timeline }
  let repo_cleaned := state.repo_local_path ≠ "" && o.repoCleaned state
  let step_msg :=
    if state.error_message ≠ "" then
      "Error: " ++ state.error_message.take 150 ++
        (if repo_cleaned then " (repo cleaned)" else " (repo NOT cleaned)")
    else if repo_cleaned then "Completed — local repo cleaned up"
    else "Completed"
  { state with
    end_time := end_time
    results := some results
    repo_cleaned := repo_cleaned
    current_step := step_msg }

/-- Stage dispatch: the effect of executing one named node, with external
results supplied by the oracle. -/
def nodeEffect (o : Oracle) : Node → AgentState → AgentState
  | .clone_repo => repo_clone_node o
  | .install_deps => dep_install_node
  | .discover_tests => test_discovery_node o
  | .run_tests => test_runner_node o
  | .analyze_failures => code_analysis_node o
  | .apply_config_fix => config_fix_node o
  | .reinstall_deps => _reinstall_deps_node
  | .generate_tests => test_generator_node o
  | .generate_fixes => fix_generator_node
  | .commit_and_push => commit_node o
  | .monitor_cicd => cicd_monitor_node o
  | .skip_cicd => _skip_cicd_node o
  | .retry_increment => retry_increment_node
  | .finalize => finalize_node o
  | .END => id

/-- The edge map of `build_agent_graph` (agent_graph.py lines 219–293).
LangGraph evaluates a conditional edge on the state returned by the node
that just completed, so `nextNode n` consumes that output state. -/
def nextNode : Node → AgentState → Node
  | .clone_repo, _ => .install_deps
  | .install_deps, _ => .discover_tests
  | .discover_tests, _ => .run_tests
  | .run_tests, _ => .analyze_failures
  | .analyze_failures, st =>
      if _has_fixable_failures st = "apply_config_fix" then .apply_config_fix
      else if _has_fixable_failures st = "generate_fixes" then .generate_fixes
      else .finalize
  | .apply_config_fix, st =>
      if _after_config_fix st = "reinstall_deps" then .reinstall_deps
      else .finalize
  | .reinstall_deps, st =>
      if _should_generate_tests st = "generate_tests" then .generate_tests
      else .commit_and_push
  | .generate_tests, _ => .commit_and_push
  | .generate_fixes, _ => .commit_and_push
  | .commit_and_push, st =>
      if _should_monitor_cicd st = "monitor_cicd" then .monitor_cicd
      else .skip_cicd
  | .monitor_cicd, st =>
      if should_retry st = "run_tests" then .retry_increment else .finalize
  | .skip_cicd, st =>
      if should_retry st = "run_tests" then .retry_increment else .finalize
  | .retry_increment, _ => .run_tests
  | .finalize, _ => .END
  | .END, _ => .END

/-- One step of graph execution: run the current node, then follow its
(possibly conditional) outgoing edge. -/
def graphStep (o : Oracle) (p : Node × AgentState) : Node × AgentState :=
  let st := nodeEffect o p.1 p.2
  (nextNode p.1 st, st)

/-- `k` steps of graph execution. -/
def execN (o : Oracle) : Nat → Node × AgentState → Node × AgentState
  | 0, p => p
  | k + 1, p => execN o k (graphStep o p)

/-! ### Key-level model of the run-state dict (for claim C10)

LangGraph states are dicts; `finalize_node` uses mandatory subscripts
(`state["..."]`, raising `KeyError` when absent) for some keys.  The keys a
run-state dict can carry are the keys of the initial-state literal in
`run_agent_pipeline` plus the keys each node's `return {**state, ...}` adds;
this is an over-approximation whether or not LangGraph drops keys absent
from the `AgentState` TypedDict. -/

/-- Keys of the `initial_state` dict literal in `run_agent_pipeline`
(main.py lines 164–197). -/
def initialStateKeys : List String :=
  ["run_id", "github_url", "commit_message", "github_token", "auto_commit",
   "branch_name", "repo_local_path", "test_framework", "test_files",
   "test_results", "failures", "fixes_applied", "commit_count",
   "push_succeeded", "iteration", "ci_cd_timeline", "ci_cd_status",
   "start_time", "end_time", "current_step", "results", "error_message",
   "repo_cleaned", "logs", "files_failed_before", "test_exit_class",
   "generated_test_files", "config_fix_changed", "tests_generated",
   "no_diff_counts", "effective_repo_url", "forked_from"]

/-- Keys each node's returned dict adds on top of the carried-over state
(the non-`**state` keys of every `return` statement of that node's source,
including, for `discover_tests`, the inline `test_generator_node` call). -/
def nodeAddedKeys : Node → List String
  | .clone_repo =>
      ["repo_local_path", "branch_name", "effective_repo_url", "forked_from",
       "current_step", "logs"]
  | .install_deps => ["current_step", "logs"]
  | .discover_tests =>
      ["test_framework", "test_files", "current_step", "logs",
       "tests_generated", "generated_test_files", "fixes_applied"]
  | .run_tests => ["test_results", "test_exit_class", "current_step", "logs"]
  | .analyze_failures => ["failures", "current_step", "logs"]
  | .apply_config_fix =>
      ["fixes_applied", "config_fix_changed", "current_step", "logs"]
  | .reinstall_deps => ["current_step", "logs"]
  | .generate_tests =>
      ["logs", "tests_generated", "test_files", "generated_test_files",
       "fixes_applied", "current_step"]
  | .generate_fixes =>
      ["fixes_applied", "new_fix_count", "files_failed_before",
       "no_diff_counts", "current_step", "logs"]
  | .commit_and_push =>
      ["commit_count", "push_succeeded", "current_step", "logs",
       "error_message"]
  | .monitor_cicd => ["ci_cd_status", "ci_cd_timeline", "current_step", "logs"]
  | .skip_cicd => ["ci_cd_status", "ci_cd_timeline", "current_step", "logs"]
  | .retry_increment => ["iteration", "config_fix_changed", "current_step"]
  | .finalize => ["end_time", "results", "repo_cleaned", "current_step"]
  | .END => []

/-- Key set of the run-state dict after executing any sequence of nodes. -/
def keysAfter (path : List Node) : List String :=
  initialStateKeys ++ path.flatMap nodeAddedKeys

/-- The mandatory `state["..."]` subscripts of `finalize_node`
(retry_controller.py lines 81–84): `run_id`, `team_name`, `leader_name`,
`github_url`.  Any of them being absent raises `KeyError`. -/
def finalizeMandatoryKeys : List String :=
  ["run_id", "team_name", "leader_name", "github_url"]

/-- `finalize_node` raises `KeyError` on a state dict with key set `keys`
iff some mandatory subscript is not among them. -/
def finalizeRaisesKeyError (keys : List String) : Bool :=
  finalizeMandatoryKeys.any (fun k => decide (k ∉ keys))

/-- Fields of the `AgentResults` pydantic model without a default
(results_schema.py lines 41–57): pydantic raises a validation error when a
constructor call omits any of them. -/
def agentResultsRequiredFields : List String :=
  ["run_id", "commit_message", "repo_url", "branch"]

/-- Keyword-argument names of the `AgentResults(...)` constructor call in
`finalize_node` (retry_controller.py lines 80–96). -/
def finalizeAgentResultsKwargs : List String :=
  ["run_id", "team_name", "leader_name", "repo_url", "branch", "branch_url",
   "total_failures", "total_fixes", "ci_cd_status", "iterations_used",
   "commit_count", "time_taken_seconds", "score", "fixes", "ci_cd_timeline"]

/-! ### Claim theorems -/

/-- C10.  `finalize_node` cannot complete on any state produced from the
pipeline's initial state: whatever sequence of graph nodes has run, the
state dict's keys never include `team_name` or `leader_name`, so the
mandatory subscripts `state["team_name"]` / `state["leader_name"]` raise
`KeyError`; independently, the `AgentResults(...)` call omits the required
`commit_message` field, so even with those keys present construction would
raise a validation error instead of returning a result record. -/
theorem claim10_finalize_missing_keys :
    (∀ path : List Node,
      ("team_name" ∉ keysAfter path ∧ "leader_name" ∉ keysAfter path) ∧
      finalizeRaisesKeyError (keysAfter path) = true) ∧
    ("team_name" ∈ finalizeMandatoryKeys ∧
     "leader_name" ∈ finalizeMandatoryKeys) ∧
    ("commit_message" ∈ agentResultsRequiredFields ∧
     "commit_message" ∉ finalizeAgentResultsKwargs) := by
  refine ⟨fun path => ?_, by decide, by decide⟩
  have hteam : "team_name" ∉ keysAfter path := by
    simp only [keysAfter, List.mem_append, List.mem_flatMap]
    rintro (h | ⟨n, _, h⟩)
    · revert h; decide
    · revert h; cases n <;> decide
  have hlead : "leader_name" ∉ keysAfter path := by
    simp only [keysAfter, List.mem_append, List.mem_flatMap]
    rintro (h | ⟨n, _, h⟩)
    · revert h; decide
    · revert h; cases n <;> decide
  refine ⟨⟨hteam, hlead⟩, ?_⟩
  simp only [finalizeRaisesKeyError, List.any_eq_true]
  exact ⟨"team_name", by decide, by simpa [decide_eq_true_eq] using hteam⟩

/-- C5, counterexample.  A state in which the just-completed config-fix
stage wrote nothing (`config_fix_changed = False`) while tests were already
generated: `_after_config_fix` selects `finalize`, not `reinstall_deps`,
contradicting the claim that the router always advances to ReinstallDeps
and never finalizes after a no-op config fix. -/
theorem claim5_counterexample :
    let st := { initialAgentState "run-1" "https://github.com/acme/demo"
                  "msg" "tok" false 0 with
                config_fix_changed := false, tests_generated := true }
    _after_config_fix st = "finalize" ∧
    _after_config_fix st ≠ "reinstall_deps" := by
  constructor <;> decide

/-- C5, amended.  After ApplyConfigFix the router advances to ReinstallDeps
iff the config stage wrote files or tests have not been generated yet; on a
no-op config fix with tests already generated it selects Finalize
(`_after_config_fix`, agent_graph.py lines 100–116). -/
theorem claim5_after_config_fix_amended (st : AgentState) :
    _after_config_fix st =
      if st.config_fix_changed ∨ st.tests_generated = false
      then "reinstall_deps" else "finalize" := by
  unfold _after_config_fix
  by_cases h1 : st.config_fix_changed <;>
    by_cases h2 : st.tests_generated <;> simp [h1, h2]

/-- C6, counterexample.  A CODE_FAILURE outcome (`test_exit_class =
"TESTS_FAILED"`) with an empty failures list is never routed to
GenerateFixes: with tests already generated the router finalizes, and with
tests not yet generated it routes to ApplyConfigFix
(`_has_fixable_failures`, agent_graph.py lines 84–95). -/
theorem claim6_counterexample :
    let st₁ := { initialAgentState "run-1" "https://github.com/acme/demo"
                   "msg" "tok" false 0 with
                 test_exit_class := "TESTS_FAILED", failures := [],
                 tests_generated := true }
    let st₂ := { st₁ with tests_generated := false }
    _has_fixable_failures st₁ = "finalize" ∧
    _has_fixable_failures st₂ = "apply_config_fix" ∧
    _has_fixable_failures st₁ ≠ "generate_fixes" ∧
    _has_fixable_failures st₂ ≠ "generate_fixes" := by
  refine ⟨?_, ?_, ?_, ?_⟩ <;> decide

/-- C6, amended.  At the post-Classify decision point, a CODE_FAILURE
outcome with an empty failures list routes to ApplyConfigFix when tests
have not been generated yet and to Finalize otherwise; GenerateFixes is
selected only when the failures list is nonempty. -/
theorem claim6_code_failure_routing_amended (st : AgentState)
    (hclass : st.test_exit_class = "TESTS_FAILED")
    (hempty : st.failures = []) :
    _has_fixable_failures st =
      if st.tests_generated then "finalize" else "apply_config_fix" := by
  unfold _has_fixable_failures
  by_cases h : st.tests_generated <;> simp [hclass, hempty, h]

/-- C6, amended, witness. -/
theorem claim6_code_failure_routing_amended_witness :
    _has_fixable_failures
      { initialAgentState "run-1" "https://github.com/acme/demo"
          "msg" "tok" false 0 with
        test_exit_class := "TESTS_FAILED", failures := [],
        tests_generated := true } =
      if ({ initialAgentState "run-1" "https://github.com/acme/demo"
              "msg" "tok" false 0 with
            test_exit_class := "TESTS_FAILED", failures := [],
            tests_generated := true } : AgentState).tests_generated
      then "finalize" else "apply_config_fix" :=
  claim6_code_failure_routing_amended _ rfl rfl

/-- C8.  The score formula of `ScoreBreakdown.calculate`
(results_schema.py lines 31–38): base 100, a speed bonus of 10 below 300
seconds, an efficiency penalty of 2 per commit over 20, and their sum; in
particular 25 commits in 200 seconds score 100. -/
theorem claim8_score_formula :
    (∀ (t : ℚ) (c : Int),
      (ScoreBreakdown.calculate t c).base = 100 ∧
      (ScoreBreakdown.calculate t c).speed_bonus =
        (if t < 300 then 10 else 0) ∧
      (ScoreBreakdown.calculate t c).efficiency_penalty =
        -(2 * max 0 (c - 20)) ∧
      (ScoreBreakdown.calculate t c).final =
        100 + (if t < 300 then 10 else 0) - 2 * max 0 (c - 20)) ∧
    (ScoreBreakdown.calculate 200 25).final = 100 := by
  constructor
  · intro t c
    refine ⟨rfl, rfl, by simp [ScoreBreakdown.calculate]; ring, ?_⟩
    simp only [ScoreBreakdown.calculate]
    ring
  · norm_num [ScoreBreakdown.calculate]

/-- C9, counterexample.  Two states agreeing on every field the claim lists
— outcome class (`test_exit_class`), `iteration`, blacklist
(`files_failed_before`), and the mode flags (`auto_commit`,
`tests_generated`) — but with different `failures` lists are routed
differently by the post-Classify router, so those fields alone do not
determine the routing decision. -/
theorem claim9_counterexample :
    let s₁ := { initialAgentState "run-1" "https://github.com/acme/demo"
                  "msg" "tok" false 0 with
                test_exit_class := "TESTS_FAILED", failures := [],
                tests_generated := true }
    let s₂ := { s₁ with
                failures := [{ file := "a.py", bug_type := "LOGIC",
                               line_number := 1,
                               outcome := AttemptOutcome.noDiff }] }
    s₁.test_exit_class = s₂.test_exit_class ∧
    s₁.iteration = s₂.iteration ∧
    s₁.files_failed_before = s₂.files_failed_before ∧
    s₁.auto_commit = s₂.auto_commit ∧
    s₁.tests_generated = s₂.tests_generated ∧
    _has_fixable_failures s₁ ≠ _has_fixable_failures s₂ := by
  refine ⟨rfl, rfl, rfl, rfl, rfl, ?_⟩
  decide

/-- C9, amended.  The post-Classify router is a pure function of the state:
it is determined by `test_exit_class`, emptiness of `failures`, and
`tests_generated` (but not by the claim's four listed fields alone). -/
theorem claim9_router_deterministic_amended (s₁ s₂ : AgentState)
    (hclass : s₁.test_exit_class = s₂.test_exit_class)
    (hfail : s₁.failures.isEmpty = s₂.failures.isEmpty)
    (hgen : s₁.tests_generated = s₂.tests_generated) :
    _has_fixable_failures s₁ = _has_fixable_failures s₂ := by
  have h1 : (s₁.failures = []) ↔ (s₂.failures = []) := by
    rw [← List.isEmpty_iff, ← List.isEmpty_iff, hfail]
  have h2 : (s₁.failures.length = 0) ↔ (s₂.failures.length = 0) := by
    rw [List.length_eq_zero, List.length_eq_zero]; exact h1
  unfold _has_fixable_failures
  simp only [hclass, hgen]
  by_cases hc : s₁.failures.length = 0
  · simp [hc, h2.mp hc]
  · simp [hc, mt h2.mpr hc]

/-- C9, amended, witness. -/
theorem claim9_router_deterministic_amended_witness :
    _has_fixable_failures
      (initialAgentState "run-1" "https://github.com/acme/demo"
        "msg" "tok" false 0) =
    _has_fixable_failures
      { initialAgentState "run-1" "https://github.com/acme/demo"
          "msg" "tok" false 0 with current_step := "other" } :=
  claim9_router_deterministic_amended _ _ rfl rfl rfl

/-! ### Lemmas about the repair-attempt loop of `fix_generator_node` -/

/-- Membership in a path set after `set.add`. -/
theorem addPath_mem {q p : String} {l : List String} :
    q ∈ addPath p l ↔ q ∈ l ∨ q = p := by
  unfold addPath
  split
  · rename_i h
    constructor
    · exact Or.inl
    · rintro (hq | rfl) <;> [exact hq; exact h]
  · simp

/-- A blacklisted file is skipped: the loop body leaves the accumulator
unchanged. -/
theorem fixGenStep_skip {acc : FixGenAcc} {f : Failure}
    (h : f.file ∈ acc.files_failed_before) : fixGenStep acc f = acc := by
  unfold fixGenStep
  rw [if_pos h]

/-- All fix records appended by one loop pass are records for the processed
failure's file, and they are appended at the end. -/
theorem fixGenStep_fixes_extend (acc : FixGenAcc) (f : Failure) :
    ∃ tl, (fixGenStep acc f).fixes_applied = acc.fixes_applied ++ tl ∧
      ∀ r ∈ tl, r.file = f.file := by
  unfold fixGenStep
  split
  · exact ⟨[], by simp⟩
  · obtain ⟨ffile, fbug, fline, fout⟩ := f
    cases fout with
    | notFound => exact ⟨_, rfl, by simp⟩
    | changed => exact ⟨_, rfl, by simp⟩
    | noDiff =>
        dsimp only
        split
        · exact ⟨_, rfl, by simp⟩
        · exact ⟨[], by simp⟩
    | genError msg => exact ⟨_, rfl, by simp⟩

/-- One loop pass for a different file leaves a file's no-diff counter
unchanged. -/
theorem fixGenStep_counts_ne {acc : FixGenAcc} {f : Failure} {p : String}
    (h : f.file ≠ p) :
    (fixGenStep acc f).no_diff_counts p = acc.no_diff_counts p := by
  unfold fixGenStep
  split
  · rfl
  · obtain ⟨ffile, fbug, fline, fout⟩ := f
    cases fout with
    | notFound => rfl
    | changed => simp_all [updCount, Ne.symm h]
    | noDiff =>
        dsimp only
        split <;> simp_all [updCount, Ne.symm h]
    | genError msg => rfl

/-- One loop pass for a different file does not change whether a file is
blacklisted. -/
theorem fixGenStep_blacklist_ne {acc : FixGenAcc} {f : Failure} {p : String}
    (h : f.file ≠ p) :
    (p ∈ (fixGenStep acc f).files_failed_before ↔
      p ∈ acc.files_failed_before) := by
  unfold fixGenStep
  split
  · rfl
  · obtain ⟨ffile, fbug, fline, fout⟩ := f
    cases fout with
    | notFound => simp_all [addPath_mem, Ne.symm h]
    | changed => rfl
    | noDiff =>
        dsimp only
        split
        · simp_all [addPath_mem, Ne.symm h]
        · rfl
    | genError msg => rfl

/-- The blacklist only grows during the loop. -/
theorem fixGenStep_blacklist_mono {acc : FixGenAcc} {f : Failure} {p : String}
    (h : p ∈ acc.files_failed_before) :
    p ∈ (fixGenStep acc f).files_failed_before := by
  unfold fixGenStep
  split
  · exact h
  · obtain ⟨ffile, fbug, fline, fout⟩ := f
    cases fout with
    | notFound => simp [addPath_mem, h]
    | changed => exact h
    | noDiff =>
        dsimp only
        split
        · simp [addPath_mem, h]
        · exact h
    | genError msg => exact h

/-- Appending records for other files changes neither per-file record
count. -/
theorem countRecs_append_avoid {p s : String} {l tl : List FixRec}
    (h : ∀ r ∈ tl, r.file ≠ p) :
    countRecs p s (l ++ tl) = countRecs p s l := by
  unfold countRecs
  rw [List.countP_append]
  have : tl.countP (fun r => decide (r.file = p ∧ r.status = s)) = 0 := by
    rw [List.countP_eq_zero]
    intro r hr
    simp [h r hr]
  omega

/-- Appending records for other files does not change a file's total record
count. -/
theorem countFile_append_avoid {p : String} {l tl : List FixRec}
    (h : ∀ r ∈ tl, r.file ≠ p) :
    countFile p (l ++ tl) = countFile p l := by
  unfold countFile
  rw [List.countP_append]
  have : tl.countP (fun r => decide (r.file = p)) = 0 := by
    rw [List.countP_eq_zero]
    intro r hr
    simp [h r hr]
  omega

/-- Processing failures none of which target `p` leaves `p`'s counter and
blacklist status unchanged and appends no record for `p`. -/
theorem fixGen_foldl_untargeted (p : String) :
    ∀ (fails : List Failure), (∀ f ∈ fails, f.file ≠ p) →
    ∀ acc : FixGenAcc,
      (List.foldl fixGenStep acc fails).no_diff_counts p =
        acc.no_diff_counts p ∧
      (p ∈ (List.foldl fixGenStep acc fails).files_failed_before ↔
        p ∈ acc.files_failed_before) ∧
      ∃ tl, (List.foldl fixGenStep acc fails).fixes_applied =
          acc.fixes_applied ++ tl ∧ ∀ r ∈ tl, r.file ≠ p
  | [], _, acc => ⟨rfl, Iff.rfl, [], by simp, by simp⟩
  | f :: t, h, acc => by
      have hf : f.file ≠ p := h f (by simp)
      have ht : ∀ g ∈ t, g.file ≠ p := fun g hg => h g (by simp [hg])
      obtain ⟨hc, hb, tl, htl, htlne⟩ :=
        fixGen_foldl_untargeted p t ht (fixGenStep acc f)
      obtain ⟨tl₀, htl₀, htl₀f⟩ := fixGenStep_fixes_extend acc f
      refine ⟨?_, ?_, tl₀ ++ tl, ?_, ?_⟩
      · rw [List.foldl_cons, hc, fixGenStep_counts_ne hf]
      · rw [List.foldl_cons]
        exact hb.trans (fixGenStep_blacklist_ne hf)
      · rw [List.foldl_cons, htl, htl₀, List.append_assoc]
      · intro r hr
        rcases List.mem_append.mp hr with h₀ | h₁
        · rw [htl₀f r h₀]; exact hf
        · exact htlne r h₁

/-- Once a file is blacklisted, the rest of the loop skips it: it stays
blacklisted, its counter is untouched, and no record for it is appended. -/
theorem fixGen_foldl_blacklisted (p : String) :
    ∀ (fails : List Failure) (acc : FixGenAcc),
      p ∈ acc.files_failed_before →
      p ∈ (List.foldl fixGenStep acc fails).files_failed_before ∧
      (List.foldl fixGenStep acc fails).no_diff_counts p =
        acc.no_diff_counts p ∧
      ∃ tl, (List.foldl fixGenStep acc fails).fixes_applied =
          acc.fixes_applied ++ tl ∧ ∀ r ∈ tl, r.file ≠ p
  | [], acc, h => ⟨h, rfl, [], by simp, by simp⟩
  | f :: t, acc, h => by
      by_cases hf : f.file = p
      · have hskip : fixGenStep acc f = acc :=
          fixGenStep_skip (by rw [hf]; exact h)
        rw [List.foldl_cons, hskip]
        exact fixGen_foldl_blacklisted p t acc h
      · obtain ⟨hb, hc, tl, htl, htlne⟩ :=
          fixGen_foldl_blacklisted p t (fixGenStep acc f)
            (fixGenStep_blacklist_mono h)
        obtain ⟨tl₀, htl₀, htl₀f⟩ := fixGenStep_fixes_extend acc f
        refine ⟨by rw [List.foldl_cons]; exact hb, ?_, tl₀ ++ tl, ?_, ?_⟩
        · rw [List.foldl_cons, hc, fixGenStep_counts_ne hf]
        · rw [List.foldl_cons, htl, htl₀, List.append_assoc]
        · intro r hr
          rcases List.mem_append.mp hr with h₀ | h₁
          · rw [htl₀f r h₀]; exact hf
          · exact htlne r h₁

/-- The three state fields `fix_generator_node` derives from the loop
accumulator. -/
theorem fix_generator_node_proj (st : AgentState) :
    (fix_generator_node st).no_diff_counts =
      (st.failures.foldl fixGenStep
        ⟨st.fixes_applied, st.files_failed_before, [],
          st.no_diff_counts, 0⟩).no_diff_counts ∧
    (fix_generator_node st).files_failed_before =
      (st.failures.foldl fixGenStep
        ⟨st.fixes_applied, st.files_failed_before, [],
          st.no_diff_counts, 0⟩).files_failed_before ∧
    (fix_generator_node st).fixes_applied =
      (st.failures.foldl fixGenStep
        ⟨st.fixes_applied, st.files_failed_before, [],
          st.no_diff_counts, 0⟩).fixes_applied :=
  ⟨rfl, rfl, rfl⟩

/-- A repair attempt on a fresh file (counter 0, not blacklisted) that
produces no diff: the counter becomes 1, the file is not blacklisted, and
no record for it is appended. -/
theorem fixGen_noDiff_below (st : AgentState) (p bug : String) (line : Int)
    (a b : List Failure) (hab : ∀ g ∈ a ++ b, g.file ≠ p)
    (hb : p ∉ st.files_failed_before) (hc0 : st.no_diff_counts p = 0) :
    (fix_generator_node { st with
        failures := a ++ [⟨p, bug, line, .noDiff⟩] ++ b }).no_diff_counts p
        = 1 ∧
    p ∉ (fix_generator_node { st with
        failures := a ++ [⟨p, bug, line, .noDiff⟩] ++ b }).files_failed_before ∧
    countFile p (fix_generator_node { st with
        failures := a ++ [⟨p, bug, line, .noDiff⟩] ++ b }).fixes_applied
        = countFile p st.fixes_applied := by
  obtain ⟨hproj₁, hproj₂, hproj₃⟩ :=
    fix_generator_node_proj { st with
      failures := a ++ [⟨p, bug, line, .noDiff⟩] ++ b }
  rw [hproj₁, hproj₂, hproj₃]
  have ha : ∀ g ∈ a, g.file ≠ p := fun g hg => hab g (List.mem_append_left _ hg)
  have hbs : ∀ g ∈ b, g.file ≠ p := fun g hg => hab g (List.mem_append_right _ hg)
  set acc0 : FixGenAcc :=
    ⟨st.fixes_applied, st.files_failed_before, [], st.no_diff_counts, 0⟩
    with hacc0
  obtain ⟨hAc, hAb, tlA, hAfix, hAavoid⟩ := fixGen_foldl_untargeted p a ha acc0
  set A := List.foldl fixGenStep acc0 a with hA
  have hmem : (⟨p, bug, line, .noDiff⟩ : Failure).file ∉ A.files_failed_before := by
    simpa using fun h => hb (hAb.mp h)
  have hApc : A.no_diff_counts p = 0 := by rw [hAc]; exact hc0
  have hBeq : fixGenStep A ⟨p, bug, line, .noDiff⟩ =
      { A with no_diff_counts := updCount A.no_diff_counts p 1 } := by
    unfold fixGenStep
    rw [if_neg hmem]
    dsimp only
    rw [hApc]
    norm_num [MAX_NO_DIFF_RETRIES]
  simp only [List.foldl_append, List.foldl_cons, List.foldl_nil]
  rw [← hA, hBeq]
  obtain ⟨hCc, hCb, tlC, hCfix, hCavoid⟩ :=
    fixGen_foldl_untargeted p b hbs
      { A with no_diff_counts := updCount A.no_diff_counts p 1 }
  refine ⟨?_, ?_, ?_⟩
  · rw [hCc]; simp [updCount]
  · intro h
    exact hb (hAb.mp (hCb.mp h))
  · rw [hCfix]
    dsimp only
    rw [countFile_append_avoid hCavoid, hAfix,
      countFile_append_avoid hAavoid]

/-- A second consecutive no-diff attempt (counter already 1): the counter
reaches 2, the file enters the blacklist, and exactly one record — a
"Failed" one — is appended for it. -/
theorem fixGen_noDiff_cross (st : AgentState) (p bug : String) (line : Int)
    (a b : List Failure) (hab : ∀ g ∈ a ++ b, g.file ≠ p)
    (hb : p ∉ st.files_failed_before) (hc1 : st.no_diff_counts p = 1) :
    (fix_generator_node { st with
        failures := a ++ [⟨p, bug, line, .noDiff⟩] ++ b }).no_diff_counts p
        = MAX_NO_DIFF_RETRIES ∧
    p ∈ (fix_generator_node { st with
        failures := a ++ [⟨p, bug, line, .noDiff⟩] ++ b }).files_failed_before ∧
    countRecs p "Failed" (fix_generator_node { st with
        failures := a ++ [⟨p, bug, line, .noDiff⟩] ++ b }).fixes_applied
        = countRecs p "Failed" st.fixes_applied + 1 ∧
    countFile p (fix_generator_node { st with
        failures := a ++ [⟨p, bug, line, .noDiff⟩] ++ b }).fixes_applied
        = countFile p st.fixes_applied + 1 := by
  obtain ⟨hproj₁, hproj₂, hproj₃⟩ :=
    fix_generator_node_proj { st with
      failures := a ++ [⟨p, bug, line, .noDiff⟩] ++ b }
  rw [hproj₁, hproj₂, hproj₃]
  have ha : ∀ g ∈ a, g.file ≠ p := fun g hg => hab g (List.mem_append_left _ hg)
  have hbs : ∀ g ∈ b, g.file ≠ p := fun g hg => hab g (List.mem_append_right _ hg)
  set acc0 : FixGenAcc :=
    ⟨st.fixes_applied, st.files_failed_before, [], st.no_diff_counts, 0⟩
    with hacc0
  obtain ⟨hAc, hAb, tlA, hAfix, hAavoid⟩ := fixGen_foldl_untargeted p a ha acc0
  set A := List.foldl fixGenStep acc0 a with hA
  have hmem : (⟨p, bug, line, .noDiff⟩ : Failure).file ∉ A.files_failed_before := by
    simpa using fun h => hb (hAb.mp h)
  have hApc : A.no_diff_counts p = 1 := by rw [hAc]; exact hc1
  have hBeq : fixGenStep A ⟨p, bug, line, .noDiff⟩ =
      { A with
        no_diff_counts := updCount A.no_diff_counts p 2
        fixes_applied := A.fixes_applied ++
          [{ file := p, bug_type := bug, line_number := line,
             commit_message := "fix: no change generated for " ++ p ++
               " after " ++ toString 2 ++ " attempts",
             status := "Failed" }]
        new_failed_files := addPath p A.new_failed_files
        files_failed_before := addPath p A.files_failed_before } := by
    unfold fixGenStep
    rw [if_neg hmem]
    dsimp only
    rw [hApc]
    norm_num [MAX_NO_DIFF_RETRIES]
  simp only [List.foldl_append, List.foldl_cons, List.foldl_nil]
  rw [← hA, hBeq]
  set B : FixGenAcc :=
    { A with
      no_diff_counts := updCount A.no_diff_counts p 2
      fixes_applied := A.fixes_applied ++
        [{ file := p, bug_type := bug, line_number := line,
           commit_message := "fix: no change generated for " ++ p ++
             " after " ++ toString 2 ++ " attempts",
           status := "Failed" }]
      new_failed_files := addPath p A.new_failed_files
      files_failed_before := addPath p A.files_failed_before } with hBdef
  have hpB : p ∈ B.files_failed_before := by
    rw [hBdef]
    exact addPath_mem.mpr (Or.inr rfl)
  obtain ⟨hCb, hCc, tlC, hCfix, hCavoid⟩ := fixGen_foldl_blacklisted p b B hpB
  have hacc0fix : acc0.fixes_applied = st.fixes_applied := rfl
  refine ⟨?_, hCb, ?_, ?_⟩
  · rw [hCc, hBdef]
    simp [updCount, MAX_NO_DIFF_RETRIES]
  · rw [hCfix, countRecs_append_avoid hCavoid, hBdef]
    dsimp only
    rw [hAfix, hacc0fix]
    have h0 : countRecs p "Failed" tlA = 0 := by
      unfold countRecs
      rw [List.countP_eq_zero]
      intro r hr
      simp [hAavoid r hr]
    unfold countRecs at h0 ⊢
    rw [List.append_assoc, List.countP_append, List.countP_append]
    simp [h0]
    intro r hr hrp
    exact absurd hrp (hAavoid r hr)
  · rw [hCfix, countFile_append_avoid hCavoid, hBdef]
    dsimp only
    rw [hAfix, hacc0fix]
    have h0 : countFile p tlA = 0 := by
      unfold countFile
      rw [List.countP_eq_zero]
      intro r hr
      simp [hAavoid r hr]
    unfold countFile at h0 ⊢
    rw [List.append_assoc, List.countP_append, List.countP_append]
    simp [h0]

/-- A concrete request state used to instantiate theorems on concrete
inputs (the initial state of `run_agent_pipeline` for a sample request). -/
def sampleState : AgentState :=
  initialAgentState "run-1" "https://github.com/acme/demo" "msg" "tok" false 0

/-- A concrete oracle: no fork, pytest detected, every test run exits with
code 4 (collection error), the config fix writes `pytest.ini`, generation
finds full coverage, pushes succeed, and remote CI reports FAILED. -/
def sampleOracle : Oracle where
  branchName := fun _ => "ai-fix"
  effectiveRepoUrl := fun st => st.github_url
  forkedFrom := fun _ => ""
  testFramework := fun _ => "pytest"
  discoveredTestFiles := fun _ => []
  discoveryFrameworkMissing := fun _ => false
  testReturncode := fun _ => 4
  analysisFailures := fun _ => []
  configWrotePytestIni := fun _ => true
  configPatchedRequirements := fun _ => false
  configScaffolded := fun _ => false
  configAppName := fun _ => "app"
  genHasFailing := fun _ => false
  genRepairRecords := fun _ => []
  genAllCovered := fun _ => true
  genNewTestFiles := fun _ => []
  genRecords := fun _ => []
  commitOutcome := fun _ => .ok true
  ciStatus := fun _ => "FAILED"
  timestamp := fun _ => "2026-01-01T00:00:00+00:00"
  endTime := fun _ => 200
  repoCleaned := fun _ => false

/-- C2.  A file with a fresh no-diff counter that is targeted once per
repair pass: after two consecutive passes whose repair attempt on it
produces unchanged content, its counter is exactly 2, it is in the
permanent blacklist, exactly one new record for it — with status "Failed"
— was appended, and that happened at the pass that crossed the threshold
(the first pass appended no record for it); any later repair pass skips it,
appending no further record for it.  The other failures processed in the
same passes (`a₁, b₁, a₂, b₂, fs₃`) are arbitrary as long as they target
other files; the pipeline stages between repair passes do not touch the
counter or the blacklist. -/
theorem claim2_no_diff_blacklist (st : AgentState) (p : String)
    (bug₁ bug₂ : String) (line₁ line₂ : Int)
    (a₁ b₁ a₂ b₂ fs₃ : List Failure)
    (hc : st.no_diff_counts p = 0) (hb : p ∉ st.files_failed_before)
    (ha₁ : ∀ g ∈ a₁ ++ b₁, g.file ≠ p) (ha₂ : ∀ g ∈ a₂ ++ b₂, g.file ≠ p) :
    let st₁ := fix_generator_node { st with
      failures := a₁ ++ [⟨p, bug₁, line₁, .noDiff⟩] ++ b₁ }
    let st₂ := fix_generator_node { st₁ with
      failures := a₂ ++ [⟨p, bug₂, line₂, .noDiff⟩] ++ b₂ }
    let st₃ := fix_generator_node { st₂ with failures := fs₃ }
    (st₁.no_diff_counts p = 1 ∧ p ∉ st₁.files_failed_before ∧
      countFile p st₁.fixes_applied = countFile p st.fixes_applied) ∧
    (st₂.no_diff_counts p = MAX_NO_DIFF_RETRIES ∧
      p ∈ st₂.files_failed_before ∧
      countRecs p "Failed" st₂.fixes_applied =
        countRecs p "Failed" st₁.fixes_applied + 1 ∧
      countFile p st₂.fixes_applied = countFile p st₁.fixes_applied + 1) ∧
    (p ∈ st₃.files_failed_before ∧
      countFile p st₃.fixes_applied = countFile p st₂.fixes_applied) := by
  intro st₁ st₂ st₃
  obtain ⟨h₁c, h₁b, h₁f⟩ := fixGen_noDiff_below st p bug₁ line₁ a₁ b₁ ha₁ hb hc
  obtain ⟨h₂c, h₂b, h₂r, h₂f⟩ :=
    fixGen_noDiff_cross st₁ p bug₂ line₂ a₂ b₂ ha₂ h₁b h₁c
  obtain ⟨h₃b, h₃c, tl, htl, havoid⟩ :=
    fixGen_foldl_blacklisted p fs₃
      ⟨st₂.fixes_applied, st₂.files_failed_before, [],
        st₂.no_diff_counts, 0⟩ h₂b
  refine ⟨⟨h₁c, h₁b, h₁f⟩, ⟨h₂c, h₂b, h₂r, h₂f⟩, h₃b, ?_⟩
  show countFile p (List.foldl fixGenStep
      ⟨st₂.fixes_applied, st₂.files_failed_before, [],
        st₂.no_diff_counts, 0⟩ fs₃).fixes_applied =
    countFile p st₂.fixes_applied
  rw [htl]
  exact countFile_append_avoid havoid

/-- C2, witness: the scenario-B instance on `utils.py`. -/
theorem claim2_no_diff_blacklist_witness :
    let st₁ := fix_generator_node { sampleState with
      failures := [] ++ [⟨"utils.py", "LOGIC", 1, .noDiff⟩] ++ [] }
    let st₂ := fix_generator_node { st₁ with
      failures := [] ++ [⟨"utils.py", "LOGIC", 1, .noDiff⟩] ++ [] }
    let st₃ := fix_generator_node { st₂ with
      failures := [⟨"utils.py", "LOGIC", 1, .noDiff⟩] }
    (st₁.no_diff_counts "utils.py" = 1 ∧
      "utils.py" ∉ st₁.files_failed_before ∧
      countFile "utils.py" st₁.fixes_applied =
        countFile "utils.py" sampleState.fixes_applied) ∧
    (st₂.no_diff_counts "utils.py" = MAX_NO_DIFF_RETRIES ∧
      "utils.py" ∈ st₂.files_failed_before ∧
      countRecs "utils.py" "Failed" st₂.fixes_applied =
        countRecs "utils.py" "Failed" st₁.fixes_applied + 1 ∧
      countFile "utils.py" st₂.fixes_applied =
        countFile "utils.py" st₁.fixes_applied + 1) ∧
    ("utils.py" ∈ st₃.files_failed_before ∧
      countFile "utils.py" st₃.fixes_applied =
        countFile "utils.py" st₂.fixes_applied) :=
  claim2_no_diff_blacklist sampleState "utils.py" "LOGIC" "LOGIC" 1 1
    [] [] [] [] [⟨"utils.py", "LOGIC", 1, .noDiff⟩]
    rfl (by decide) (by simp) (by simp)

/-- When a file is targeted at most once in a repair pass and the pass
appends a "Fixed" record for it, the pass leaves its no-diff counter at 0
(the `no_diff_counts[file_path] = 0` reset of fix_generator_agent.py
line 109, undisturbed by the remaining loop passes). -/
theorem fixGen_foldl_fixed_reset (p : String) :
    ∀ (fails : List Failure) (acc : FixGenAcc),
      fails.countP (fun f => decide (f.file = p)) ≤ 1 →
      countRecs p "Fixed" (List.foldl fixGenStep acc fails).fixes_applied >
        countRecs p "Fixed" acc.fixes_applied →
      (List.foldl fixGenStep acc fails).no_diff_counts p = 0
  | [], acc, _, hgt => absurd hgt (by simp)
  | f :: t, acc, hcount, hgt => by
      by_cases hfp : f.file = p
      · have ht0 : t.countP (fun g => decide (g.file = p)) = 0 := by
          have h2 : (f :: t).countP (fun g => decide (g.file = p)) =
              t.countP (fun g => decide (g.file = p)) + 1 := by
            rw [List.countP_cons]
            simp [hfp]
          omega
        have htne : ∀ g ∈ t, g.file ≠ p := by
          intro g hg
          have h := List.countP_eq_zero.mp ht0 g hg
          simpa using h
        obtain ⟨hCc, hCb, tl, htl, havoid⟩ :=
          fixGen_foldl_untargeted p t htne (fixGenStep acc f)
        rw [List.foldl_cons, hCc]
        rw [List.foldl_cons, htl, countRecs_append_avoid havoid] at hgt
        by_cases hmem : f.file ∈ acc.files_failed_before
        · rw [fixGenStep_skip hmem] at hgt
          exact absurd hgt (lt_irrefl _)
        · obtain ⟨ffile, fbug, fline, fout⟩ := f
          dsimp only at hfp hmem
          subst hfp
          cases fout with
          | notFound =>
              exfalso
              unfold fixGenStep at hgt
              rw [if_neg hmem] at hgt
              dsimp only at hgt
              unfold countRecs at hgt
              rw [List.countP_append] at hgt
              simp at hgt
          | changed =>
              unfold fixGenStep
              rw [if_neg hmem]
              dsimp only
              simp [updCount]
          | noDiff =>
              exfalso
              unfold fixGenStep at hgt
              rw [if_neg hmem] at hgt
              dsimp only at hgt
              split at hgt
              · unfold countRecs at hgt
                rw [List.countP_append] at hgt
                simp at hgt
              · exact absurd hgt (lt_irrefl _)
          | genError msg =>
              exfalso
              unfold fixGenStep at hgt
              rw [if_neg hmem] at hgt
              dsimp only at hgt
              unfold countRecs at hgt
              rw [List.countP_append] at hgt
              simp at hgt
      · have hcount' : t.countP (fun g => decide (g.file = p)) ≤ 1 := by
          rw [List.countP_cons] at hcount
          omega
        rw [List.foldl_cons] at hgt ⊢
        obtain ⟨tl₀, htl₀, htl₀f⟩ := fixGenStep_fixes_extend acc f
        have hstep : countRecs p "Fixed" (fixGenStep acc f).fixes_applied =
            countRecs p "Fixed" acc.fixes_applied := by
          rw [htl₀]
          refine countRecs_append_avoid ?_
          intro r hr
          rw [htl₀f r hr]
          exact hfp
        rw [← hstep] at hgt
        exact fixGen_foldl_fixed_reset p t (fixGenStep acc f) hcount' hgt

/-- C3, counterexample.  When the failures list targets the same file
twice — the first attempt changes its content (appending a "Fixed" record
and resetting the counter), the second attempt produces no diff — the
returned state carries a "Fixed" record for the file appended by this very
call while its no-diff counter is 1, not 0. -/
theorem claim3_counterexample :
    let st := { sampleState with
      failures := [⟨"a.py", "LOGIC", 1, .changed⟩,
                   ⟨"a.py", "LOGIC", 1, .noDiff⟩] }
    countRecs "a.py" "Fixed" (fix_generator_node st).fixes_applied =
      countRecs "a.py" "Fixed" sampleState.fixes_applied + 1 ∧
    (fix_generator_node st).no_diff_counts "a.py" = 1 := by
  constructor <;> decide

/-- C3, amended.  Whenever a repair pass appends a "Fixed" record for a
file `p` and `p` is targeted by at most one failure in that pass, the
returned state's no-diff counter for `p` is 0; a second failure targeting
`p` in the same pass can leave the counter positive after the reset. -/
theorem claim3_counter_reset_amended (st : AgentState) (p : String)
    (hone : st.failures.countP (fun f => decide (f.file = p)) ≤ 1)
    (hfix : countRecs p "Fixed" (fix_generator_node st).fixes_applied >
      countRecs p "Fixed" st.fixes_applied) :
    (fix_generator_node st).no_diff_counts p = 0 := by
  obtain ⟨hp₁, _, hp₃⟩ := fix_generator_node_proj st
  rw [hp₁]
  rw [hp₃] at hfix
  exact fixGen_foldl_fixed_reset p st.failures _ hone hfix

/-- C3, amended, witness. -/
theorem claim3_counter_reset_amended_witness :
    (fix_generator_node { sampleState with
      failures := [⟨"a.py", "LOGIC", 1, .changed⟩] }).no_diff_counts "a.py"
      = 0 :=
  claim3_counter_reset_amended
    { sampleState with failures := [⟨"a.py", "LOGIC", 1, .changed⟩] }
    "a.py" (by decide) (by decide)

/-- C4, counterexample.  From a state with an empty blacklist and all
no-diff counters 0 (the values of the pipeline's initial state), one repair
pass over a failure whose file is missing on disk blacklists that file via
the could-not-find branch (fix_generator_agent.py lines 40–51) while its
no-diff counter is still 0 — strictly below the threshold of 2 — so
blacklist membership does not imply the counter reached the threshold. -/
theorem claim4_counterexample :
    let st := { sampleState with
      failures := [⟨"missing.py", "LOGIC", 3, .notFound⟩] }
    sampleState.files_failed_before = [] ∧
    "missing.py" ∈ (fix_generator_node st).files_failed_before ∧
    (fix_generator_node st).no_diff_counts "missing.py" = 0 ∧
    (fix_generator_node st).no_diff_counts "missing.py"
      < MAX_NO_DIFF_RETRIES := by
  refine ⟨?_, ?_, ?_, ?_⟩ <;> decide

/-- The amended blacklist invariant: a blacklisted path either had its
no-diff counter reach the threshold or has a "Failed" fix record (the
missing-file branch appends one the moment it blacklists). -/
def blacklistInv (st : AgentState) : Prop :=
  ∀ p ∈ st.files_failed_before,
    MAX_NO_DIFF_RETRIES ≤ st.no_diff_counts p ∨
    ∃ r ∈ st.fixes_applied, r.file = p ∧ r.status = "Failed"

/-- The same invariant on the repair-loop accumulator. -/
def fixGenAccInv (acc : FixGenAcc) : Prop :=
  ∀ p ∈ acc.files_failed_before,
    MAX_NO_DIFF_RETRIES ≤ acc.no_diff_counts p ∨
    ∃ r ∈ acc.fixes_applied, r.file = p ∧ r.status = "Failed"

/-- One pass of the repair loop preserves the blacklist invariant. -/
theorem fixGenStep_accInv {acc : FixGenAcc} (f : Failure)
    (h : fixGenAccInv acc) : fixGenAccInv (fixGenStep acc f) := by
  by_cases hmem : f.file ∈ acc.files_failed_before
  · rw [fixGenStep_skip hmem]
    exact h
  · obtain ⟨ffile, fbug, fline, fout⟩ := f
    dsimp only at hmem
    cases fout with
    | notFound =>
        unfold fixGenStep
        rw [if_neg hmem]
        dsimp only
        intro p hp
        dsimp only at hp ⊢
        rcases addPath_mem.mp hp with hpold | heq
        · rcases h p hpold with hcnt | ⟨r, hr, hrp⟩
          · exact Or.inl hcnt
          · exact Or.inr ⟨r, List.mem_append_left _ hr, hrp⟩
        · exact Or.inr ⟨⟨ffile, fbug, fline,
            "fix: could not find " ++ ffile, "Failed"⟩,
            List.mem_append_right _ (List.mem_singleton_self _),
            heq.symm, rfl⟩
    | changed =>
        unfold fixGenStep
        rw [if_neg hmem]
        dsimp only
        intro p hp
        dsimp only at hp ⊢
        have hpne : p ≠ ffile := fun hpe => hmem (hpe ▸ hp)
        rcases h p hp with hcnt | ⟨r, hr, hrp⟩
        · exact Or.inl (by simpa [updCount, hpne] using hcnt)
        · exact Or.inr ⟨r, List.mem_append_left _ hr, hrp⟩
    | noDiff =>
        unfold fixGenStep
        rw [if_neg hmem]
        dsimp only
        split
        · intro p hp
          dsimp only at hp ⊢
          rcases addPath_mem.mp hp with hpold | heq
          · have hpne : p ≠ ffile := fun hpe => hmem (hpe ▸ hpold)
            rcases h p hpold with hcnt | ⟨r, hr, hrp⟩
            · exact Or.inl (by simpa [updCount, hpne] using hcnt)
            · exact Or.inr ⟨r, List.mem_append_left _ hr, hrp⟩
          · exact Or.inr ⟨⟨ffile, fbug, fline,
              "fix: no change generated for " ++ ffile ++ " after " ++
                toString (acc.no_diff_counts ffile + 1) ++ " attempts",
              "Failed"⟩,
              List.mem_append_right _ (List.mem_singleton_self _),
              heq.symm, rfl⟩
        · intro p hp
          dsimp only at hp ⊢
          have hpne : p ≠ ffile := fun hpe => hmem (hpe ▸ hp)
          rcases h p hp with hcnt | hrec
          · exact Or.inl (by simpa [updCount, hpne] using hcnt)
          · exact Or.inr hrec
    | genError msg =>
        unfold fixGenStep
        rw [if_neg hmem]
        dsimp only
        intro p hp
        dsimp only at hp ⊢
        rcases h p hp with hcnt | ⟨r, hr, hrp⟩
        · exact Or.inl hcnt
        · exact Or.inr ⟨r, List.mem_append_left _ hr, hrp⟩

/-- The whole repair loop preserves the blacklist invariant. -/
theorem fixGen_foldl_accInv :
    ∀ (fails : List Failure) (acc : FixGenAcc), fixGenAccInv acc →
      fixGenAccInv (List.foldl fixGenStep acc fails)
  | [], _, h => h
  | f :: t, acc, h => by
      rw [List.foldl_cons]
      exact fixGen_foldl_accInv t (fixGenStep acc f) (fixGenStep_accInv f h)

/-- A stage that does not touch the blacklist or the counters and only
appends fix records preserves the blacklist invariant. -/
theorem blacklistInv_of_untouched {st st' : AgentState}
    (hbl : st'.files_failed_before = st.files_failed_before)
    (hcnt : st'.no_diff_counts = st.no_diff_counts)
    (hfix : ∃ tl, st'.fixes_applied = st.fixes_applied ++ tl)
    (h : blacklistInv st) : blacklistInv st' := by
  intro p hp
  rw [hbl] at hp
  rcases h p hp with hc | ⟨r, hr, hrp⟩
  · exact Or.inl (by rw [hcnt]; exact hc)
  · obtain ⟨tl, htl⟩ := hfix
    exact Or.inr ⟨r, by rw [htl]; exact List.mem_append_left _ hr, hrp⟩

/-- The repair stage preserves the blacklist invariant. -/
theorem fix_generator_node_blacklistInv (st : AgentState)
    (h : blacklistInv st) : blacklistInv (fix_generator_node st) := by
  obtain ⟨hp₁, hp₂, hp₃⟩ := fix_generator_node_proj st
  have hInv := fixGen_foldl_accInv st.failures
    ⟨st.fixes_applied, st.files_failed_before, [], st.no_diff_counts, 0⟩ h
  intro p hp
  rw [hp₂] at hp
  rw [hp₁, hp₃]
  exact hInv p hp

/-- Every stage other than the repair stage leaves the blacklist and the
counters unchanged and only appends fix records. -/
theorem nodeEffect_untouched (o : Oracle) (n : Node)
    (hn : n ≠ Node.generate_fixes) (st : AgentState) :
    (nodeEffect o n st).files_failed_before = st.files_failed_before ∧
    (nodeEffect o n st).no_diff_counts = st.no_diff_counts ∧
    ∃ tl, (nodeEffect o n st).fixes_applied = st.fixes_applied ++ tl := by
  cases n <;> first
    | exact absurd rfl hn
    | (unfold nodeEffect repo_clone_node dep_install_node test_discovery_node
        test_runner_node code_analysis_node config_fix_node
        _reinstall_deps_node test_generator_node commit_node
        cicd_monitor_node _skip_cicd_node retry_increment_node finalize_node
       dsimp only
       repeat' split
       all_goals first
         | exact ⟨rfl, rfl, _, rfl⟩
         | exact ⟨rfl, rfl, [], (List.append_nil _).symm⟩)

/-- Every stage preserves the blacklist invariant. -/
theorem nodeEffect_blacklistInv (o : Oracle) (n : Node) (st : AgentState)
    (h : blacklistInv st) : blacklistInv (nodeEffect o n st) := by
  by_cases hn : n = Node.generate_fixes
  · subst hn
    exact fix_generator_node_blacklistInv st h
  · obtain ⟨h1, h2, h3⟩ := nodeEffect_untouched o n hn st
    exact blacklistInv_of_untouched h1 h2 h3 h

/-- C4, amended.  Invariant over every state reachable from any state
satisfying it (in particular the initial state, whose blacklist is empty):
a path appears in the blacklist only if its no-diff counter reached the
threshold of 2 or a "Failed" fix record for it was appended — the
missing-file branch of the repair loop blacklists a path with one "Failed"
could-not-find record while its counter stays below the threshold. -/
theorem claim4_blacklist_inv_amended (o : Oracle) :
    ∀ (k : Nat) (n : Node) (st : AgentState), blacklistInv st →
      blacklistInv (execN o k (n, st)).2
  | 0, _, _, h => h
  | k + 1, n, st, h =>
      claim4_blacklist_inv_amended o k (nextNode n (nodeEffect o n st))
        (nodeEffect o n st) (nodeEffect_blacklistInv o n st h)

/-- C4, amended, witness: one repair pass over a missing file starting from
the initial state's empty blacklist. -/
theorem claim4_blacklist_inv_amended_witness :
    blacklistInv (execN sampleOracle 1
      (Node.generate_fixes,
        { sampleState with
          failures := [⟨"missing.py", "LOGIC", 3, .notFound⟩] })).2 :=
  claim4_blacklist_inv_amended sampleOracle 1 Node.generate_fixes
    { sampleState with
      failures := [⟨"missing.py", "LOGIC", 3, .notFound⟩] }
    (by intro p hp; simp [sampleState, initialAgentState] at hp)

/-! ### Iteration budget (claims C1 and C7) -/

/-- Bound on the iteration count recorded in a result record, when one has
been produced. -/
def iterOK : Option AgentResultsRec → Prop
  | none => True
  | some r => r.iterations_used ≤ MAX_ITERATIONS

/-- Every stage except `retry_increment` leaves `iteration` unchanged. -/
theorem nodeEffect_iteration (o : Oracle) (n : Node)
    (hn : n ≠ Node.retry_increment) (st : AgentState) :
    (nodeEffect o n st).iteration = st.iteration := by
  cases n <;> first
    | exact absurd rfl hn
    | (unfold nodeEffect repo_clone_node dep_install_node test_discovery_node
        test_runner_node code_analysis_node config_fix_node
        _reinstall_deps_node test_generator_node commit_node
        cicd_monitor_node _skip_cicd_node fix_generator_node finalize_node
       dsimp only
       repeat' split
       all_goals rfl)

/-- Every stage except `finalize` leaves `results` unchanged. -/
theorem nodeEffect_results (o : Oracle) (n : Node)
    (hn : n ≠ Node.finalize) (st : AgentState) :
    (nodeEffect o n st).results = st.results := by
  cases n <;> first
    | exact absurd rfl hn
    | (unfold nodeEffect repo_clone_node dep_install_node test_discovery_node
        test_runner_node code_analysis_node config_fix_node
        _reinstall_deps_node test_generator_node commit_node
        cicd_monitor_node _skip_cicd_node fix_generator_node
        retry_increment_node
       dsimp only
       repeat' split
       all_goals rfl)

/-- `finalize_node` records the current iteration count in the result. -/
theorem finalize_node_results (o : Oracle) (st : AgentState) :
    ∃ r, (finalize_node o st).results = some r ∧
      r.iterations_used = st.iteration :=
  ⟨_, rfl, rfl⟩

/-- The only edge into `retry_increment` comes from the CI-monitoring
nodes and fires only when `should_retry` chose to retry. -/
theorem nextNode_retry_increment : ∀ (n : Node) (st : AgentState),
    nextNode n st = Node.retry_increment → should_retry st = "run_tests" := by
  intro n st h
  cases n <;> simp only [nextNode] at h <;>
    first
      | exact absurd h (by decide)
      | (split_ifs at h <;> first | assumption | exact absurd h (by decide))

/-- When `should_retry` chooses to retry, the iteration budget is not yet
exhausted. -/
theorem should_retry_run_tests (st : AgentState)
    (h : should_retry st = "run_tests") :
    st.iteration < MAX_ITERATIONS := by
  unfold should_retry at h
  dsimp only at h
  split_ifs at h with h1 h2 h3 <;> first
    | exact absurd h (by decide)
    | omega

/-- The iteration-budget invariant carried along graph execution. -/
def IterInv (p : Node × AgentState) : Prop :=
  p.2.iteration ≤ MAX_ITERATIONS ∧
  (p.1 = Node.retry_increment → p.2.iteration < MAX_ITERATIONS) ∧
  iterOK p.2.results

/-- One graph step preserves the iteration-budget invariant. -/
theorem graphStep_IterInv (o : Oracle) (p : Node × AgentState)
    (h : IterInv p) : IterInv (graphStep o p) := by
  obtain ⟨n, st⟩ := p
  obtain ⟨h1, h2, h3⟩ := h
  have hiter : (nodeEffect o n st).iteration ≤ MAX_ITERATIONS := by
    by_cases hn : n = Node.retry_increment
    · subst hn
      have : (nodeEffect o Node.retry_increment st).iteration =
          st.iteration + 1 := rfl
      rw [this]
      exact h2 rfl
    · rw [nodeEffect_iteration o n hn st]
      exact h1
  refine ⟨hiter, ?_, ?_⟩
  · intro hnext
    have hr := nextNode_retry_increment n (nodeEffect o n st) hnext
    exact should_retry_run_tests _ hr
  · by_cases hn : n = Node.finalize
    · subst hn
      obtain ⟨r, hr, hru⟩ :=
        finalize_node_results o st
      show iterOK (finalize_node o st).results
      rw [hr]
      show r.iterations_used ≤ MAX_ITERATIONS
      rw [hru]
      exact h1
    · show iterOK (nodeEffect o n st).results
      rw [nodeEffect_results o n hn st]
      exact h3

/-- Any number of graph steps preserves the iteration-budget invariant. -/
theorem execN_IterInv (o : Oracle) :
    ∀ (k : Nat) (p : Node × AgentState), IterInv p → IterInv (execN o k p)
  | 0, _, h => h
  | k + 1, p, h => execN_IterInv o k (graphStep o p) (graphStep_IterInv o p h)

/-- C1.  The three finalize triggers of `should_retry` (fatal error, CI
success, exhausted budget) each force "finalize"; a "run_tests" verdict
implies the budget was not exhausted, so the subsequent increment stays
within it; consequently, along any graph execution from an initial state
(iteration 1, no result yet), `iteration` never exceeds `MAX_ITERATIONS`,
`retry_increment` is never entered with an exhausted budget, and any
recorded result has `iterations_used ≤ MAX_ITERATIONS`. -/
theorem claim1_iteration_budget :
    (∀ st : AgentState,
      st.error_message ≠ "" ∨ st.ci_cd_status = "PASSED" ∨
        MAX_ITERATIONS ≤ st.iteration →
      should_retry st = "finalize") ∧
    (∀ st : AgentState, should_retry st = "run_tests" →
      st.iteration < MAX_ITERATIONS ∧
      (retry_increment_node st).iteration ≤ MAX_ITERATIONS) ∧
    (∀ (o : Oracle) (init : AgentState) (k : Nat),
      init.iteration = 1 → init.results = none →
      (execN o k (Node.clone_repo, init)).2.iteration ≤ MAX_ITERATIONS ∧
      ((execN o k (Node.clone_repo, init)).1 = Node.retry_increment →
        (execN o k (Node.clone_repo, init)).2.iteration < MAX_ITERATIONS) ∧
      iterOK (execN o k (Node.clone_repo, init)).2.results) := by
  refine ⟨?_, ?_, ?_⟩
  · intro st h
    unfold should_retry
    dsimp only
    split_ifs with h1 h2 h3 <;> try rfl
    exfalso
    rcases h with h | h | h
    · exact h1 h
    · exact h2 h
    · exact h3 h
  · intro st h
    have hlt := should_retry_run_tests st h
    refine ⟨hlt, ?_⟩
    have : (retry_increment_node st).iteration = st.iteration + 1 := rfl
    omega
  · intro o init k h1 hres
    have h0 : IterInv (Node.clone_repo, init) := by
      refine ⟨?_, ?_, ?_⟩
      · show init.iteration ≤ MAX_ITERATIONS
        rw [h1]
        decide
      · intro hh
        simp at hh
      · show iterOK init.results
        rw [hres]
        trivial
    exact execN_IterInv o k (Node.clone_repo, init) h0

/-- C1, witness. -/
theorem claim1_iteration_budget_witness :
    should_retry { sampleState with ci_cd_status := "PASSED" } = "finalize" ∧
    (sampleState.iteration < MAX_ITERATIONS ∧
      (retry_increment_node sampleState).iteration ≤ MAX_ITERATIONS) ∧
    ((execN sampleOracle 3 (Node.clone_repo, sampleState)).2.iteration ≤
        MAX_ITERATIONS ∧
      ((execN sampleOracle 3 (Node.clone_repo, sampleState)).1 =
          Node.retry_increment →
        (execN sampleOracle 3 (Node.clone_repo, sampleState)).2.iteration <
          MAX_ITERATIONS) ∧
      iterOK (execN sampleOracle 3 (Node.clone_repo, sampleState)).2.results) :=
  ⟨claim1_iteration_budget.1 _ (Or.inr (Or.inl rfl)),
   claim1_iteration_budget.2.1 sampleState rfl,
   claim1_iteration_budget.2.2 sampleOracle sampleState 3 rfl rfl⟩

/-- C7, counterexample.  A run whose first test execution exits with a
collection error on iteration 1 (the `sampleOracle` scenario): it is routed
Classify → ApplyConfigFix → ReinstallDeps → GenerateTests → Commit →
MonitorCI → RetryIncrement, and the first re-entry into RunTests happens
with `iteration = 2`, not 1 — the config-fix path does pass through the
iteration increment before tests are re-run. -/
theorem claim7_counterexample :
    (execN sampleOracle 4 (Node.clone_repo, sampleState)).1 =
      Node.analyze_failures ∧
    (execN sampleOracle 4 (Node.clone_repo, sampleState)).2.test_exit_class =
      "COLLECTION_ERROR" ∧
    (execN sampleOracle 4 (Node.clone_repo, sampleState)).2.iteration = 1 ∧
    (execN sampleOracle 5 (Node.clone_repo, sampleState)).1 =
      Node.apply_config_fix ∧
    (execN sampleOracle 6 (Node.clone_repo, sampleState)).1 =
      Node.reinstall_deps ∧
    (execN sampleOracle 7 (Node.clone_repo, sampleState)).1 =
      Node.generate_tests ∧
    (execN sampleOracle 8 (Node.clone_repo, sampleState)).1 =
      Node.commit_and_push ∧
    (execN sampleOracle 9 (Node.clone_repo, sampleState)).1 =
      Node.monitor_cicd ∧
    (execN sampleOracle 10 (Node.clone_repo, sampleState)).1 =
      Node.retry_increment ∧
    (execN sampleOracle 11 (Node.clone_repo, sampleState)).1 =
      Node.run_tests ∧
    (execN sampleOracle 11 (Node.clone_repo, sampleState)).2.iteration = 2 := by
  refine ⟨?_, ?_, ?_, ?_, ?_, ?_, ?_, ?_, ?_, ?_, ?_⟩ <;> decide

/-- C7, amended.  After a collection error, the run is indeed routed through
ApplyConfigFix and ReinstallDeps, but the only edges into RunTests are the
initial one from DiscoverTests and the one from RetryIncrement, and
RetryIncrement always adds 1 to the iteration counter: the config-fix path
re-enters RunTests with the iteration incremented (to 2 on the first
cycle), consuming a retry. -/
theorem claim7_retry_path_amended :
    (∀ (n : Node) (st : AgentState), nextNode n st = Node.run_tests →
      n = Node.discover_tests ∨ n = Node.retry_increment) ∧
    (∀ st : AgentState, (retry_increment_node st).iteration =
      st.iteration + 1) := by
  constructor
  · intro n st h
    cases n <;> simp only [nextNode] at h <;>
      first
        | exact absurd h (by decide)
        | exact Or.inl rfl
        | exact Or.inr rfl
        | (split_ifs at h <;> exact absurd h (by decide))
  · intro st
    rfl

/-- C7, amended, witness. -/
theorem claim7_retry_path_amended_witness :
    (Node.retry_increment = Node.discover_tests ∨
      Node.retry_increment = Node.retry_increment) ∧
    (retry_increment_node sampleState).iteration =
      sampleState.iteration + 1 :=
  ⟨claim7_retry_path_amended.1 Node.retry_increment sampleState rfl,
   claim7_retry_path_amended.2 sampleState⟩
